import Mathlib

/-!
Shallow embedding of `src/complaint_system.py`, a single-file Streamlit
application ("E-Complaint Justice Tracking System").

Modelling conventions:
- The users table is a JSON object (Python dict) from email to user record;
  it is modelled as an association list `List (String × User)`.  The code
  only ever inserts fresh keys (register_page line 215 guards `email in
  users`, init_system line 121 guards the admin key), so insertion is
  modelled as appending the new binding, matching dict iteration order.
- The complaint store is a JSON array, modelled as `List Complaint`.
- `hash_password` (line 90) is SHA-256; it is modelled as an abstract
  function parameter `hash_password : String → String`, since the claims
  only use that hashing is a function of the password.
- Timestamps (`datetime.now().isoformat()`) and dates (`date.today()`,
  the date-input value, stored via `isoformat`) are modelled as `Nat`.
  ISO-8601 strings compare lexicographically exactly as the underlying
  time points compare, so the ordering-sensitive behaviour (the
  `sorted(..., key=created_at, reverse=True)` calls and the date-input
  `max_value=date.today()` bound) is preserved.  The two separate
  `datetime.now()` calls inside one filing (lines 358-359) are modelled
  by a single `now` parameter for the operation.
- Python truthiness of strings (`not all([...])`, `department if
  department else None`) is modelled as comparison with `""`.
-/

namespace ComplaintSystem

/-- A user record as stored in the users table: shape from
`register_page` (src lines 218-225) and `init_system` (lines 122-129).
The `password` field holds the password hash, as in the source. -/
structure User where
  name : String
  email : String
  phone : String
  password : String
  is_admin : Bool
  created_at : Nat
deriving Repr, DecidableEq

/-- A complaint record: shape from `file_complaint_page` (src lines
345-360). -/
structure Complaint where
  id : Nat
  user_email : String
  user_name : String
  title : String
  category : String
  description : String
  location : String
  incident_date : Nat
  evidence_file : Option String
  status : String
  department : Option String
  admin_notes : Option String
  created_at : Nat
  updated_at : Nat
deriving Repr, DecidableEq

/-- Dict lookup `users.get(email)` on the users table. -/
def usersGet : List (String × User) → String → Option User
  | [], _ => none
  | (e, u) :: rest, email => if e = email then some u else usersGet rest email

/-- Dict membership `email in users`. -/
def usersContains (users : List (String × User)) (email : String) : Bool :=
  (usersGet users email).isSome

/-- Dict insertion `users[email] = u` for a key not yet present
(the only way the source ever writes to the table). -/
def usersInsert (users : List (String × User)) (email : String) (u : User) :
    List (String × User) :=
  users ++ [(email, u)]

/-- The login-form submission logic of `login_page` (src lines 172-182):
returns the logged-in user on success (`user and user['password'] ==
hash_password(password)`), `none` on the invalid-credentials error. -/
def loginAttempt (hash_password : String → String) (users : List (String × User))
    (email password : String) : Option User :=
  match usersGet users email with
  | some user => if user.password = hash_password password then some user else none
  | none => none

/-- The four outcomes of the register-form submission (src lines 208-229):
three error branches and the success branch. -/
inductive RegisterOutcome
  | missingFields
  | passwordMismatch
  | duplicateEmail
  | registered
deriving Repr, DecidableEq

/-- The register-form submission logic of `register_page` (src lines
208-229): validation branches in source order, and on success the new
record (hashed password, `is_admin=False`) is stored under `email` and the
table saved.  The returned table is the table after the submission. -/
def registerSubmit (hash_password : String → String) (users : List (String × User))
    (name email phone password confirm_password : String) (now : Nat) :
    RegisterOutcome × List (String × User) :=
  if name = "" ∨ email = "" ∨ phone = "" ∨ password = "" ∨ confirm_password = "" then
    (.missingFields, users)
  else if password ≠ confirm_password then
    (.passwordMismatch, users)
  else if usersContains users email then
    (.duplicateEmail, users)
  else
    (.registered, usersInsert users email
      { name := name, email := email, phone := phone,
        password := hash_password password, is_admin := false, created_at := now })

/-- The well-known default administrator email (src line 121). -/
def adminEmail : String := "admin@justice.gov"

/-- The documented default administrator password (src line 126). -/
def adminDefaultPassword : String := "admin123"

/-- `init_system` (src lines 118-130): if the admin email is not a key of
the users table, add the default administrator record and save; otherwise
leave the table untouched. -/
def init_system (hash_password : String → String) (users : List (String × User))
    (now : Nat) : List (String × User) :=
  if usersContains users adminEmail then users
  else usersInsert users adminEmail
    { name := "Admin", email := adminEmail, phone := "0000000000",
      password := hash_password adminDefaultPassword, is_admin := true, created_at := now }

/-- The five status values offered by the manage-complaint selectbox
(src line 549); filing sets the first of them (line 355). -/
def statusValues : List String :=
  ["Filed", "Under Review", "In Progress", "Resolved", "Rejected"]

/-- The department choices of the manage-complaint selectbox (src line 555);
the first, empty choice means no department. -/
def departmentValues : List String :=
  ["", "Police Department", "Court Services", "Civic Services", "Anti-Corruption Bureau"]

/-- The three outcomes of a filing attempt: the date-input bound
`max_value=date.today()` (src line 315) makes a future incident date
unselectable, the submission handler rejects empty required fields
(line 333), and otherwise the complaint is stored (lines 336-363). -/
inductive FileOutcome
  | dateOutOfRange
  | missingFields
  | filed
deriving Repr, DecidableEq

/-- The file-complaint submission of `file_complaint_page` (src lines
303-363).  The date-input widget (line 315) caps `incident_date` at
`today`, so a later date never reaches the handler; the handler then
checks `not all([title, category, description, location])` (line 333) and
on success builds the record of lines 345-360 (id `len(complaints)+1`,
evidence stored under `f"{id}_{name}"`, status `Filed`, no department or
notes, both timestamps now) and appends it. -/
def fileComplaintSubmit (user : User) (complaints : List Complaint)
    (title category description location : String) (incident_date : Nat)
    (evidence : Option String) (today now : Nat) :
    FileOutcome × List Complaint :=
  if today < incident_date then
    (.dateOutOfRange, complaints)
  else if title = "" ∨ category = "" ∨ description = "" ∨ location = "" then
    (.missingFields, complaints)
  else
    let complaint_id := complaints.length + 1
    (.filed, complaints ++ [{
      id := complaint_id,
      user_email := user.email,
      user_name := user.name,
      title := title,
      category := category,
      description := description,
      location := location,
      incident_date := incident_date,
      evidence_file := evidence.map (fun n2 => toString complaint_id ++ "_" ++ n2),
      status := "Filed",
      department := none,
      admin_notes := none,
      created_at := now,
      updated_at := now }])

/-- The update loop of the manage-complaint submission (src lines
572-582): walk the list, and at the first complaint whose id matches,
overwrite status, department (`department if department else None`),
admin notes (likewise) and `updated_at`, then `break`. -/
def manageUpdateComplaints (complaints : List Complaint) (cid : Nat)
    (status department admin_notes : String) (now : Nat) : List Complaint :=
  match complaints with
  | [] => []
  | c :: rest =>
    if c.id = cid then
      { c with status := status,
               department := if department = "" then none else some department,
               admin_notes := if admin_notes = "" then none else some admin_notes,
               updated_at := now } :: rest
    else
      c :: manageUpdateComplaints rest cid status department admin_notes now

/-- The comparison realised by `sorted(..., key=lambda x: x['created_at'],
reverse=True)` (src lines 384 and 499): stable sort, most recent first. -/
def createdAtDesc (a b : Complaint) : Bool :=
  decide (b.created_at ≤ a.created_at)

/-- `my_complaints_page` (src lines 375-384): the complaints whose
`user_email` is the current user's email, sorted by `created_at`
descending.  `List.mergeSort` is a stable sort, as is Python `sorted`. -/
def myComplaintsList (complaints : List Complaint) (email : String) : List Complaint :=
  (complaints.filter (fun c => c.user_email == email)).mergeSort createdAtDesc

/-- `admin_dashboard_page` (src line 499): every complaint in the store,
sorted by `created_at` descending. -/
def allComplaintsList (complaints : List Complaint) : List Complaint :=
  complaints.mergeSort createdAtDesc

/-- The page selector held in `st.session_state.page`: the eight values
the source ever assigns to it. -/
inductive Page
  | login
  | register
  | dashboard
  | file_complaint
  | my_complaints
  | view_complaint
  | admin_dashboard
  | manage_complaint
deriving Repr, DecidableEq

/-- The session-scoped and persisted state the handlers read and write:
`st.session_state.current_user`, `st.session_state.page`,
`st.session_state.selected_complaint`, the users table and the complaint
list (reloaded from disk on every read, rewritten wholesale on every
write, so they are part of one state). -/
structure SessionState where
  current_user : Option User
  page : Page
  users : List (String × User)
  complaints : List Complaint
  selected_complaint : Option Nat
deriving Repr, DecidableEq

/-- The dispatch of `main` (src lines 633-650): it matches the page
selector against the eight page names and calls that page handler —
each branch renders the view of its own page, and no branch consults
`current_user`. -/
def mainRoute : Page → Page
  | .login => .login
  | .register => .register
  | .dashboard => .dashboard
  | .file_complaint => .file_complaint
  | .my_complaints => .my_complaints
  | .view_complaint => .view_complaint
  | .admin_dashboard => .admin_dashboard
  | .manage_complaint => .manage_complaint

/-- The view `main` renders for a session state: `page =
st.session_state.page` (src line 633) fed to the dispatch chain. -/
def renderedView (s : SessionState) : Page :=
  mainRoute s.page

/-- The state of a fresh session (src lines 84-87: no current user, page
`login`) on a fresh data directory, after the `init_system()` call at the
top of `main` (line 626) has added the default administrator. -/
def initialState (hash_password : String → String) (t0 : Nat) : SessionState :=
  { current_user := none,
    page := .login,
    users := init_system hash_password [] t0,
    complaints := [],
    selected_complaint := none }

/-- `any(c.id == cid)`: whether the store holds a complaint with the given
id — `manage_complaint_page` returns early (src lines 525-527) when the
selected id is not found, so the update form only exists when it is. -/
def complaintsHasId (complaints : List Complaint) (cid : Nat) : Bool :=
  complaints.any (fun c => c.id == cid)

/-- One user-triggered transition of the application: each constructor is
one button or form submission of the source, firing only from the page
that renders it (for the page handlers) or with a logged-in user (for the
sidebar, src line 593, and for handlers that dereference
`st.session_state.current_user` before reaching the widget, lines 239,
347, 376).  Submissions whose validation fails leave the state unchanged
and are covered by taking no step. -/
inductive Step (hash_password : String → String) : SessionState → SessionState → Prop
  | loginOk (s : SessionState) (email password : String) (u : User) :
      s.page = .login →
      loginAttempt hash_password s.users email password = some u →
      Step hash_password s { s with current_user := some u, page := .dashboard }
  | loginGotoRegister (s : SessionState) :
      s.page = .login →
      Step hash_password s { s with page := .register }
  | registerOk (s : SessionState) (name email phone password confirm_password : String)
      (now : Nat) (users2 : List (String × User)) :
      s.page = .register →
      registerSubmit hash_password s.users name email phone password confirm_password now
        = (.registered, users2) →
      Step hash_password s { s with users := users2, page := .login }
  | registerGotoLogin (s : SessionState) :
      s.page = .register →
      Step hash_password s { s with page := .login }
  | dashboardManageAll (s : SessionState) (u : User) :
      s.page = .dashboard → s.current_user = some u → u.is_admin = true →
      Step hash_password s { s with page := .admin_dashboard }
  | dashboardFileNew (s : SessionState) (u : User) :
      s.page = .dashboard → s.current_user = some u → u.is_admin = false →
      Step hash_password s { s with page := .file_complaint }
  | dashboardViewMy (s : SessionState) (u : User) :
      s.page = .dashboard → s.current_user = some u → u.is_admin = false →
      Step hash_password s { s with page := .my_complaints }
  | fileCancel (s : SessionState) :
      s.page = .file_complaint →
      Step hash_password s { s with page := .dashboard }
  | fileOk (s : SessionState) (u : User) (title category description location : String)
      (incident_date : Nat) (evidence : Option String) (today now : Nat)
      (cs2 : List Complaint) :
      s.page = .file_complaint → s.current_user = some u →
      fileComplaintSubmit u s.complaints title category description location
        incident_date evidence today now = (.filed, cs2) →
      Step hash_password s { s with complaints := cs2, page := .my_complaints }
  | myFirstComplaint (s : SessionState) (u : User) :
      s.page = .my_complaints → s.current_user = some u →
      Step hash_password s { s with page := .file_complaint }
  | myViewDetails (s : SessionState) (u : User) (cid : Nat) :
      s.page = .my_complaints → s.current_user = some u →
      Step hash_password s { s with selected_complaint := some cid, page := .view_complaint }
  | viewBack (s : SessionState) :
      s.page = .view_complaint →
      Step hash_password s { s with page := .my_complaints }
  | adminManage (s : SessionState) (cid : Nat) :
      s.page = .admin_dashboard →
      Step hash_password s { s with selected_complaint := some cid, page := .manage_complaint }
  | manageBack (s : SessionState) :
      s.page = .manage_complaint →
      Step hash_password s { s with page := .admin_dashboard }
  | manageUpdate (s : SessionState) (cid : Nat) (status department admin_notes : String)
      (now : Nat) :
      s.page = .manage_complaint → s.selected_complaint = some cid →
      complaintsHasId s.complaints cid = true →
      status ∈ statusValues → department ∈ departmentValues →
      Step hash_password s
        { s with complaints :=
                   manageUpdateComplaints s.complaints cid status department admin_notes now,
                 page := .admin_dashboard }
  | sidebarDashboard (s : SessionState) (u : User) :
      s.current_user = some u →
      Step hash_password s { s with page := .dashboard }
  | sidebarAdminPanel (s : SessionState) (u : User) :
      s.current_user = some u → u.is_admin = true →
      Step hash_password s { s with page := .admin_dashboard }
  | sidebarFileComplaint (s : SessionState) (u : User) :
      s.current_user = some u → u.is_admin = false →
      Step hash_password s { s with page := .file_complaint }
  | sidebarMyComplaints (s : SessionState) (u : User) :
      s.current_user = some u → u.is_admin = false →
      Step hash_password s { s with page := .my_complaints }
  | sidebarLogout (s : SessionState) (u : User) :
      s.current_user = some u →
      Step hash_password s { s with current_user := none, page := .login }
  | rerunInit (s : SessionState) (now : Nat) :
      Step hash_password s { s with users := init_system hash_password s.users now }

/-- The session states the application can actually be in: the fresh
state, closed under the transitions of `Step`. -/
inductive Reachable (hash_password : String → String) : SessionState → Prop
  | start (t0 : Nat) : Reachable hash_password (initialState hash_password t0)
  | step {s s2 : SessionState} :
      Reachable hash_password s → Step hash_password s s2 → Reachable hash_password s2

/-! ### Helper lemmas -/

/-- Looking up a freshly inserted email finds the inserted record. -/
theorem usersGet_insert_self (users : List (String × User)) (email : String) (u : User)
    (h : usersContains users email = false) :
    usersGet (usersInsert users email u) email = some u := by
  induction users with
  | nil => simp [usersGet, usersInsert]
  | cons p rest ih =>
    obtain ⟨e, v⟩ := p
    by_cases he : e = email
    · simp [usersContains, usersGet, he] at h
    · simp only [usersInsert, List.cons_append, usersGet, if_neg he]
      exact ih (by simpa [usersContains, usersGet, he] using h)

/-- First-match characterization of the manage-complaint update loop:
on a list split at the first complaint with the target id, only that
complaint is rewritten, and only in the three mutable fields and
`updated_at`. -/
theorem manageUpdateComplaints_eq (l1 l2 : List Complaint) (c : Complaint) (cid : Nat)
    (status department admin_notes : String) (now : Nat)
    (h1 : ∀ x ∈ l1, x.id ≠ cid) (h2 : c.id = cid) :
    manageUpdateComplaints (l1 ++ c :: l2) cid status department admin_notes now =
      l1 ++ { c with status := status,
                     department := if department = "" then none else some department,
                     admin_notes := if admin_notes = "" then none else some admin_notes,
                     updated_at := now } :: l2 := by
  induction l1 with
  | nil => simp [manageUpdateComplaints, h2]
  | cons x rest ih =>
    have hx : x.id ≠ cid := h1 x (by simp)
    simp only [List.cons_append, manageUpdateComplaints, if_neg hx, List.append_eq]
    rw [ih (fun y hy => h1 y (by simp [hy]))]

/-- The update loop keeps every status inside a set that contains the new
status and the statuses already present. -/
theorem manageUpdateComplaints_status_valid {cs : List Complaint} {cid : Nat}
    {status department admin_notes : String} {now : Nat}
    (hcs : ∀ c ∈ cs, c.status ∈ statusValues) (hst : status ∈ statusValues) :
    ∀ x ∈ manageUpdateComplaints cs cid status department admin_notes now,
      x.status ∈ statusValues := by
  induction cs with
  | nil => simp [manageUpdateComplaints]
  | cons c rest ih =>
    intro x hx
    simp only [manageUpdateComplaints] at hx
    split at hx
    · rcases List.mem_cons.mp hx with h | h
      · rw [h]; exact hst
      · exact hcs x (List.mem_cons_of_mem c h)
    · rcases List.mem_cons.mp hx with h | h
      · rw [h]; exact hcs c (List.mem_cons_self c rest)
      · exact ih (fun y hy => hcs y (List.mem_cons_of_mem c hy)) x h

/-- A filing attempt only ever adds complaints whose status is `Filed`. -/
theorem fileComplaintSubmit_status_valid {user : User} {cs : List Complaint}
    {title category description location : String} {incident_date : Nat}
    {evidence : Option String} {today now : Nat} {r : FileOutcome} {cs2 : List Complaint}
    (hf : fileComplaintSubmit user cs title category description location
        incident_date evidence today now = (r, cs2))
    (hcs : ∀ c ∈ cs, c.status ∈ statusValues) :
    ∀ x ∈ cs2, x.status ∈ statusValues := by
  intro x hx
  have hx2 : x ∈ (fileComplaintSubmit user cs title category description location
      incident_date evidence today now).2 := by rw [hf]; exact hx
  unfold fileComplaintSubmit at hx2
  split at hx2
  · exact hcs x hx2
  · split at hx2
    · exact hcs x hx2
    · simp only [List.mem_append, List.mem_singleton] at hx2
      rcases hx2 with h | h
      · exact hcs x h
      · rw [h]; simp [statusValues]

/-- Routing invariant: in every reachable session state, a session with
no current user is on the login or the register page. -/
theorem reachable_unauth_page (hash_password : String → String) {s : SessionState}
    (h : Reachable hash_password s) :
    s.current_user = none → s.page = Page.login ∨ s.page = Page.register := by
  induction h with
  | start t0 => intro _; left; rfl
  | step hr hs ih => cases hs <;> simp_all

/-- Status invariant: every complaint in every reachable session state
has one of the five enumerated statuses. -/
theorem reachable_status_valid (hash_password : String → String) {s : SessionState}
    (h : Reachable hash_password s) :
    ∀ c ∈ s.complaints, c.status ∈ statusValues := by
  induction h with
  | start t0 => simp [initialState]
  | step hr hs ih =>
    cases hs with
    | fileOk u title category description location incident_date evidence today now cs2
        hpage huser hfile =>
      intro c hc
      exact fileComplaintSubmit_status_valid hfile ih c hc
    | manageUpdate cid status department admin_notes now hpage hsel hid hst hdept =>
      intro c hc
      exact manageUpdateComplaints_status_valid ih hst c hc
    | _ => simpa using ih

/-! ### Claim theorems -/

/-- Claim C1: for every email not already present in the user table and
every non-empty name, phone and password, the register submission stores a
new record, a subsequent login with the same email and password succeeds
and returns that user, and a login with the same email but any password
whose hash differs from the stored hash fails with the
invalid-credentials error (`none`). -/
theorem register_then_authenticate (hash_password : String → String)
    (users : List (String × User)) (name email phone password : String) (now : Nat)
    (hdup : usersContains users email = false)
    (hname : name ≠ "") (hemail : email ≠ "") (hphone : phone ≠ "") (hpw : password ≠ "") :
    ∃ u : User,
      registerSubmit hash_password users name email phone password password now
        = (.registered, usersInsert users email u) ∧
      u.email = email ∧
      u.password = hash_password password ∧
      loginAttempt hash_password (usersInsert users email u) email password = some u ∧
      ∀ password2 : String, hash_password password2 ≠ hash_password password →
        loginAttempt hash_password (usersInsert users email u) email password2 = none := by
  refine ⟨{ name := name, email := email, phone := phone,
            password := hash_password password, is_admin := false, created_at := now },
          ?_, rfl, rfl, ?_, ?_⟩
  · simp [registerSubmit, hname, hemail, hphone, hpw, hdup]
  · simp [loginAttempt, usersGet_insert_self users email _ hdup]
  · intro password2 hne
    simp [loginAttempt, usersGet_insert_self users email _ hdup, Ne.symm hne]

/-- Claim C3: on a complaint list of length n, a filing with non-empty
title, category, description and location (and an incident date not after
the filing date, which is all the date widget can produce) appends exactly
one new complaint, with id n+1, status `Filed`, no department, no admin
notes, the owner fields copied from the current user, and both timestamps
set to the filing time. -/
theorem file_complaint_appends (user : User) (complaints : List Complaint)
    (title category description location : String) (incident_date : Nat)
    (evidence : Option String) (today now : Nat)
    (ht : title ≠ "") (hc : category ≠ "") (hd : description ≠ "") (hl : location ≠ "")
    (hdate : incident_date ≤ today) :
    fileComplaintSubmit user complaints title category description location
        incident_date evidence today now
      = (.filed, complaints ++ [{
          id := complaints.length + 1,
          user_email := user.email,
          user_name := user.name,
          title := title,
          category := category,
          description := description,
          location := location,
          incident_date := incident_date,
          evidence_file := evidence.map
            (fun n2 => toString (complaints.length + 1) ++ "_" ++ n2),
          status := "Filed",
          department := none,
          admin_notes := none,
          created_at := now,
          updated_at := now }]) := by
  simp [fileComplaintSubmit, Nat.not_lt.mpr hdate, ht, hc, hd, hl]

/-- Claim C4: a filing attempt with an incident date not after the filing
date fails with the missing-field validation error exactly when at least
one of title, category, description, location is empty; any failing
attempt leaves the complaint list unchanged; and an incident date
strictly after the filing date is rejected by the date widget and never
stored. -/
theorem file_complaint_validation (user : User) (complaints : List Complaint)
    (title category description location : String) (incident_date : Nat)
    (evidence : Option String) (today now : Nat) :
    (incident_date ≤ today →
      ((fileComplaintSubmit user complaints title category description location
          incident_date evidence today now).1 = .missingFields ↔
        (title = "" ∨ category = "" ∨ description = "" ∨ location = ""))) ∧
    ((fileComplaintSubmit user complaints title category description location
        incident_date evidence today now).1 ≠ .filed →
      (fileComplaintSubmit user complaints title category description location
          incident_date evidence today now).2 = complaints) ∧
    (today < incident_date →
      (fileComplaintSubmit user complaints title category description location
          incident_date evidence today now).1 = .dateOutOfRange ∧
      (fileComplaintSubmit user complaints title category description location
          incident_date evidence today now).2 = complaints) := by
  unfold fileComplaintSubmit
  split_ifs with h1 h2 <;> refine ⟨?_, ?_, ?_⟩ <;> simp_all

/-- Claim C8: when the user table already contains the given email, the
register submission leaves the table unchanged — in every validation
branch, so the existing record is never overwritten — and, for non-empty
fields and matching confirmation, the reported error is duplicate-email. -/
theorem register_duplicate_unchanged (hash_password : String → String)
    (users : List (String × User))
    (name email phone password confirm_password : String) (now : Nat)
    (hdup : usersContains users email = true) :
    (registerSubmit hash_password users name email phone password confirm_password now).2
      = users ∧
    (name ≠ "" → email ≠ "" → phone ≠ "" → password ≠ "" → password = confirm_password →
      (registerSubmit hash_password users name email phone password confirm_password now).1
        = .duplicateEmail) := by
  constructor
  · unfold registerSubmit
    split_ifs <;> simp_all
  · intro hname hemail hphone hpw hconf
    subst hconf
    simp [registerSubmit, hname, hemail, hphone, hpw, hdup]

/-- Claim C9: on an empty user table, `init_system` creates exactly the
default administrator record — under the well-known email, with
`is_admin` true and the hash of the documented default password — and a
login with the default credentials then succeeds; on a table that already
has a record under that email, `init_system` changes nothing. -/
theorem init_system_bootstrap (hash_password : String → String) (t0 : Nat) :
    (∃ u : User,
      init_system hash_password [] t0 = [(adminEmail, u)] ∧
      u.is_admin = true ∧
      u.password = hash_password adminDefaultPassword ∧
      loginAttempt hash_password (init_system hash_password [] t0)
        adminEmail adminDefaultPassword = some u) ∧
    (∀ users : List (String × User), usersContains users adminEmail = true →
      init_system hash_password users t0 = users) := by
  constructor
  · refine ⟨{ name := "Admin", email := adminEmail, phone := "0000000000",
              password := hash_password adminDefaultPassword, is_admin := true,
              created_at := t0 }, ?_, rfl, rfl, ?_⟩
    · simp [init_system, usersContains, usersGet, usersInsert]
    · simp [init_system, usersContains, usersGet, usersInsert, loginAttempt]
  · intro users hmem
    simp [init_system, hmem]

/-- Claim C5: on a complaint list split at the first complaint carrying
the target id, the manage-complaint update rewrites exactly that
complaint — status, department, admin notes and `updated_at` — while its
ten other fields, every other complaint, and the length and order of the
list are unchanged. -/
theorem manage_update_frame (l1 l2 : List Complaint) (c : Complaint) (cid : Nat)
    (status department admin_notes : String) (now : Nat)
    (h1 : ∀ x ∈ l1, x.id ≠ cid) (h2 : c.id = cid) :
    ∃ c2 : Complaint,
      manageUpdateComplaints (l1 ++ c :: l2) cid status department admin_notes now
        = l1 ++ c2 :: l2 ∧
      c2.status = status ∧
      c2.department = (if department = "" then none else some department) ∧
      c2.admin_notes = (if admin_notes = "" then none else some admin_notes) ∧
      c2.updated_at = now ∧
      c2.id = c.id ∧ c2.user_email = c.user_email ∧ c2.user_name = c.user_name ∧
      c2.title = c.title ∧ c2.category = c.category ∧ c2.description = c.description ∧
      c2.location = c.location ∧ c2.incident_date = c.incident_date ∧
      c2.evidence_file = c.evidence_file ∧ c2.created_at = c.created_at ∧
      (manageUpdateComplaints (l1 ++ c :: l2) cid status department admin_notes now).length
        = (l1 ++ c :: l2).length := by
  refine ⟨{ c with status := status,
                   department := if department = "" then none else some department,
                   admin_notes := if admin_notes = "" then none else some admin_notes,
                   updated_at := now },
          manageUpdateComplaints_eq l1 l2 c cid status department admin_notes now h1 h2,
          rfl, rfl, rfl, rfl, rfl, rfl, rfl, rfl, rfl, rfl, rfl, rfl, rfl, rfl, ?_⟩
  rw [manageUpdateComplaints_eq l1 l2 c cid status department admin_notes now h1 h2]
  simp

/-- Claim C10: after a manage-complaint update, the stored department is
`none` exactly when the empty department choice was selected and the
stored admin notes are `none` exactly when the notes text was empty; the
empty string is never stored in either optional field, and non-empty
values are stored verbatim. -/
theorem manage_update_optional_normalization (l1 l2 : List Complaint) (c : Complaint)
    (cid : Nat) (status department admin_notes : String) (now : Nat)
    (h1 : ∀ x ∈ l1, x.id ≠ cid) (h2 : c.id = cid) :
    ∃ c2 : Complaint,
      manageUpdateComplaints (l1 ++ c :: l2) cid status department admin_notes now
        = l1 ++ c2 :: l2 ∧
      (c2.department = none ↔ department = "") ∧
      (department ≠ "" → c2.department = some department) ∧
      c2.department ≠ some "" ∧
      (c2.admin_notes = none ↔ admin_notes = "") ∧
      (admin_notes ≠ "" → c2.admin_notes = some admin_notes) ∧
      c2.admin_notes ≠ some "" := by
  refine ⟨{ c with status := status,
                   department := if department = "" then none else some department,
                   admin_notes := if admin_notes = "" then none else some admin_notes,
                   updated_at := now },
          manageUpdateComplaints_eq l1 l2 c cid status department admin_notes now h1 h2,
          ?_, ?_, ?_, ?_, ?_, ?_⟩ <;>
    simp only [] <;> split_ifs <;> simp_all

/-- Claim C6: the my-complaints listing for an owner email holds exactly
the complaints of the store whose `user_email` equals that email — never
one filed under a different email — sorted by `created_at` descending,
and the admin listing holds every complaint of the store in the same
descending order. -/
theorem complaint_lists_visibility_and_order (complaints : List Complaint) (email : String) :
    (myComplaintsList complaints email).Perm
        (complaints.filter (fun c => c.user_email == email)) ∧
    (∀ c ∈ myComplaintsList complaints email, c.user_email = email) ∧
    (∀ c, c ∈ myComplaintsList complaints email ↔ c ∈ complaints ∧ c.user_email = email) ∧
    (myComplaintsList complaints email).Pairwise
        (fun a b => b.created_at ≤ a.created_at) ∧
    (allComplaintsList complaints).Perm complaints ∧
    (allComplaintsList complaints).Pairwise
        (fun a b => b.created_at ≤ a.created_at) := by
  have htrans : ∀ a b c : Complaint, createdAtDesc a b = true → createdAtDesc b c = true →
      createdAtDesc a c = true := by
    intro a b c hab hbc
    simp only [createdAtDesc, decide_eq_true_eq] at *
    omega
  have htotal : ∀ a b : Complaint, (createdAtDesc a b || createdAtDesc b a) = true := by
    intro a b
    simp only [createdAtDesc, Bool.or_eq_true, decide_eq_true_eq]
    omega
  have hperm1 := List.mergeSort_perm (complaints.filter (fun c => c.user_email == email))
    createdAtDesc
  have hperm2 := List.mergeSort_perm complaints createdAtDesc
  have hsort1 := List.sorted_mergeSort htrans htotal
    (complaints.filter (fun c => c.user_email == email))
  have hsort2 := List.sorted_mergeSort htrans htotal complaints
  refine ⟨hperm1, ?_, ?_, ?_, hperm2, ?_⟩
  · intro c hc
    have hmem := hperm1.mem_iff.mp hc
    simpa using (List.mem_filter.mp hmem).2
  · intro c
    rw [myComplaintsList, (List.mergeSort_perm _ _).mem_iff, List.mem_filter]
    simp
  · exact hsort1.imp (fun hab => by simpa [createdAtDesc] using hab)
  · exact hsort2.imp (fun hab => by simpa [createdAtDesc] using hab)

/-- Claim C7: every complaint in every reachable session state has one of
exactly the five enumerated statuses (filing sets `Filed` and the update
form only offers the five), and the update validates no transition
ordering: from any current status, an update to any of the five values
succeeds and stores that value. -/
theorem status_always_enumerated (hash_password : String → String) :
    (∀ s : SessionState, Reachable hash_password s →
      ∀ c ∈ s.complaints, c.status ∈ statusValues) ∧
    (∀ s1 s2 : String, s1 ∈ statusValues → s2 ∈ statusValues →
      ∀ (c : Complaint) (rest : List Complaint) (department admin_notes : String) (now : Nat),
        c.status = s1 →
        ∃ c2 : Complaint,
          manageUpdateComplaints (c :: rest) c.id s2 department admin_notes now
            = c2 :: rest ∧ c2.status = s2 ∧ c2.id = c.id) := by
  constructor
  · intro s hs
    exact reachable_status_valid hash_password hs
  · intro s1 s2 _ _ c rest department admin_notes now _
    refine ⟨{ c with status := s2,
                     department := if department = "" then none else some department,
                     admin_notes := if admin_notes = "" then none else some admin_notes,
                     updated_at := now }, ?_, rfl, rfl⟩
    simp [manageUpdateComplaints]

/-- Claim C2 counterexample: the dispatch of `main` routes on the page
selector alone; for a session state with no current user and the
dashboard page selector, it renders the dashboard view, not the login
view — there is no authentication redirect. -/
theorem main_route_no_auth_redirect :
    (SessionState.mk none Page.dashboard [] [] none).current_user = none ∧
    (SessionState.mk none Page.dashboard [] [] none).page ≠ Page.login ∧
    (SessionState.mk none Page.dashboard [] [] none).page ≠ Page.register ∧
    renderedView (SessionState.mk none Page.dashboard [] [] none) = Page.dashboard ∧
    renderedView (SessionState.mk none Page.dashboard [] [] none) ≠ Page.login := by
  refine ⟨rfl, ?_, ?_, rfl, ?_⟩ <;> decide

/-- Claim C2 (amended): the dispatch itself performs no redirect, but in
every session state reachable from a fresh session, a session with no
authenticated user has the login or the register page selected, so the
rendered view is the login or the register view and the dashboard,
filing, listing, detail, admin and manage views are never rendered for an
unauthenticated session. -/
theorem reachable_unauth_renders_login_or_register (hash_password : String → String)
    (s : SessionState) (h : Reachable hash_password s)
    (hu : s.current_user = none) :
    (s.page = Page.login ∨ s.page = Page.register) ∧
    (renderedView s = Page.login ∨ renderedView s = Page.register) := by
  rcases reachable_unauth_page hash_password h hu with h1 | h1 <;>
    simp [renderedView, mainRoute, h1]

/-! ### Concrete demonstration data for the witnesses -/

/-- A concrete stand-in for SHA-256 in the witnesses; the theorems hold
for every hash function. -/
def demoHash : String → String := fun p => p

/-- The record the register submission stores for the demo user. -/
def demoAlice : User :=
  { name := "Alice", email := "alice@example.com", phone := "5551234",
    password := demoHash "pw", is_admin := false, created_at := 1 }

/-- The users table after the demo registration. -/
def demoUsers : List (String × User) :=
  usersInsert (init_system demoHash [] 0) "alice@example.com" demoAlice

/-- The complaint the demo user files. -/
def demoComplaint : Complaint :=
  { id := 1, user_email := "alice@example.com", user_name := "Alice",
    title := "Pothole", category := "Civic Body", description := "Large pothole",
    location := "Main St", incident_date := 2, evidence_file := none,
    status := "Filed", department := none, admin_notes := none,
    created_at := 3, updated_at := 3 }

/-- The session state after a concrete session: fresh start, register,
log in, file one complaint. -/
def demoState : SessionState :=
  { current_user := some demoAlice, page := .my_complaints,
    users := demoUsers, complaints := [demoComplaint], selected_complaint := none }

/-- The demo state is reachable from a fresh session. -/
theorem demoState_reachable : Reachable demoHash demoState := by
  have h0 : Reachable demoHash (initialState demoHash 0) := Reachable.start 0
  have h1 := Reachable.step h0 (Step.loginGotoRegister _ rfl)
  have h2 := Reachable.step h1
    (Step.registerOk _ "Alice" "alice@example.com" "5551234" "pw" "pw" 1 demoUsers rfl
      (by decide))
  have h3 := Reachable.step h2
    (Step.loginOk _ "alice@example.com" "pw" demoAlice rfl (by decide))
  have h4 := Reachable.step h3 (Step.dashboardFileNew _ demoAlice rfl rfl rfl)
  have h5 := Reachable.step h4
    (Step.fileOk _ demoAlice "Pothole" "Civic Body" "Large pothole" "Main St" 2 none 2 3
      [demoComplaint] rfl rfl (by decide))
  exact h5

/-! ### Witnesses -/

/-- Witness for C1 at a concrete empty table and concrete credentials. -/
theorem register_then_authenticate_witness :
    ∃ u : User,
      registerSubmit demoHash [] "Alice" "alice@example.com" "5551234" "pw" "pw" 1
        = (.registered, usersInsert [] "alice@example.com" u) ∧
      u.email = "alice@example.com" ∧
      u.password = demoHash "pw" ∧
      loginAttempt demoHash (usersInsert [] "alice@example.com" u) "alice@example.com" "pw"
        = some u ∧
      ∀ password2 : String, demoHash password2 ≠ demoHash "pw" →
        loginAttempt demoHash (usersInsert [] "alice@example.com" u) "alice@example.com"
          password2 = none :=
  register_then_authenticate demoHash [] "Alice" "alice@example.com" "5551234" "pw" 1
    (by decide) (by decide) (by decide) (by decide) (by decide)

/-- Witness for C2 (amended) at the fresh session state. -/
theorem reachable_unauth_witness :
    ((initialState demoHash 0).page = Page.login ∨
      (initialState demoHash 0).page = Page.register) ∧
    (renderedView (initialState demoHash 0) = Page.login ∨
      renderedView (initialState demoHash 0) = Page.register) :=
  reachable_unauth_renders_login_or_register demoHash (initialState demoHash 0)
    (Reachable.start 0) rfl

/-- Witness for C3: the concrete filing of the spec example appends the
expected record. -/
theorem file_complaint_appends_witness :
    fileComplaintSubmit demoAlice [] "Pothole" "Civic Body" "Large pothole" "Main St" 2 none 2 3
      = (.filed, [demoComplaint]) := by
  have h := file_complaint_appends demoAlice [] "Pothole" "Civic Body" "Large pothole"
    "Main St" 2 none 2 3 (by decide) (by decide) (by decide) (by decide) (by decide)
  simpa [demoAlice, demoComplaint] using h

/-- Witness for C4: a concrete filing with an empty title reports the
missing-field error, and one with a future incident date is rejected with
the store untouched. -/
theorem file_complaint_validation_witness :
    ((fileComplaintSubmit demoAlice [] "" "Civic Body" "d" "Main St" 2 none 2 3).1
        = .missingFields ↔
      (("" : String) = "" ∨ ("Civic Body" : String) = "" ∨ ("d" : String) = ""
        ∨ ("Main St" : String) = "")) ∧
    ((fileComplaintSubmit demoAlice [] "Pothole" "Civic Body" "d" "Main St" 9 none 2 3).1
        = .dateOutOfRange ∧
      (fileComplaintSubmit demoAlice [] "Pothole" "Civic Body" "d" "Main St" 9 none 2 3).2
        = []) :=
  ⟨(file_complaint_validation demoAlice [] "" "Civic Body" "d" "Main St" 2 none 2 3).1
      (by decide),
   (file_complaint_validation demoAlice [] "Pothole" "Civic Body" "d" "Main St" 9 none 2 3).2.2
      (by decide)⟩

/-- Witness for C5 at a concrete one-element store. -/
theorem manage_update_frame_witness :
    ∃ c2 : Complaint,
      manageUpdateComplaints [demoComplaint] 1 "Resolved" "Civic Services" "done" 9
        = [c2] ∧
      c2.status = "Resolved" ∧
      c2.department = some "Civic Services" ∧
      c2.admin_notes = some "done" ∧
      c2.updated_at = 9 ∧
      c2.id = 1 ∧ c2.user_email = "alice@example.com" ∧ c2.user_name = "Alice" ∧
      c2.title = "Pothole" ∧ c2.category = "Civic Body" ∧ c2.description = "Large pothole" ∧
      c2.location = "Main St" ∧ c2.incident_date = 2 ∧
      c2.evidence_file = none ∧ c2.created_at = 3 ∧
      (manageUpdateComplaints [demoComplaint] 1 "Resolved" "Civic Services" "done" 9).length
        = [demoComplaint].length :=
  manage_update_frame [] [] demoComplaint 1 "Resolved" "Civic Services" "done" 9
    (by simp) (by decide)

/-- Witness for C6 at a concrete store: the demo listing only holds
complaints of the demo owner. -/
theorem complaint_lists_witness :
    ∀ c ∈ myComplaintsList [demoComplaint] "alice@example.com",
      c.user_email = "alice@example.com" :=
  (complaint_lists_visibility_and_order [demoComplaint] "alice@example.com").2.1

/-- Witness for C7: the concrete reachable demo state has only enumerated
statuses, and a concrete Filed-to-Resolved update succeeds. -/
theorem status_always_enumerated_witness :
    (∀ c ∈ demoState.complaints, c.status ∈ statusValues) ∧
    (∃ c2 : Complaint,
      manageUpdateComplaints [demoComplaint] demoComplaint.id "Resolved" "" "" 9
        = [c2] ∧ c2.status = "Resolved" ∧ c2.id = demoComplaint.id) :=
  ⟨(status_always_enumerated demoHash).1 demoState demoState_reachable,
   (status_always_enumerated demoHash).2 "Filed" "Resolved" (by decide) (by decide)
     demoComplaint [] "" "" 9 (by decide)⟩

/-- Witness for C8: registering the demo email a second time leaves the
concrete table unchanged and reports duplicate-email. -/
theorem register_duplicate_unchanged_witness :
    (registerSubmit demoHash demoUsers "Bob" "alice@example.com" "5550000" "pw2" "pw2" 4).2
      = demoUsers ∧
    (("Bob" : String) ≠ "" → ("alice@example.com" : String) ≠ ""
      → ("5550000" : String) ≠ "" → ("pw2" : String) ≠ ""
      → ("pw2" : String) = "pw2" →
      (registerSubmit demoHash demoUsers "Bob" "alice@example.com" "5550000" "pw2" "pw2" 4).1
        = .duplicateEmail) :=
  register_duplicate_unchanged demoHash demoUsers "Bob" "alice@example.com" "5550000"
    "pw2" "pw2" 4 (by decide)

/-- Witness for C9: the bootstrap record on the empty table with a
concrete hash, and no change on a concrete table that already has the
admin email. -/
theorem init_system_bootstrap_witness :
    (∃ u : User,
      init_system demoHash [] 0 = [(adminEmail, u)] ∧
      u.is_admin = true ∧
      u.password = demoHash adminDefaultPassword ∧
      loginAttempt demoHash (init_system demoHash [] 0) adminEmail adminDefaultPassword
        = some u) ∧
    init_system demoHash demoUsers 0 = demoUsers :=
  ⟨(init_system_bootstrap demoHash 0).1,
   (init_system_bootstrap demoHash 0).2 demoUsers (by decide)⟩

/-- Witness for C10: a concrete update with the empty department choice
and empty notes stores `none` in both optional fields. -/
theorem manage_update_optional_normalization_witness :
    ∃ c2 : Complaint,
      manageUpdateComplaints [demoComplaint] 1 "Under Review" "" "" 9 = [c2] ∧
      (c2.department = none ↔ ("" : String) = "") ∧
      (("" : String) ≠ "" → c2.department = some "") ∧
      c2.department ≠ some "" ∧
      (c2.admin_notes = none ↔ ("" : String) = "") ∧
      (("" : String) ≠ "" → c2.admin_notes = some "") ∧
      c2.admin_notes ≠ some "" :=
  manage_update_optional_normalization [] [] demoComplaint 1 "Under Review" "" "" 9
    (by simp) (by decide)

end ComplaintSystem
